import Mathlib

/-!
Shallow embedding of the game-loop and interaction controller of
`src/main.ts` (the two-room, localized, key+button variant built on
three.js and cannon-es).

Modelling conventions:
* JS `number` is modelled as `ℚ` for continuous quantities (time,
  positions, velocities) and as `ℤ` for counters (score, inventory), so
  that claimed sign/clamp invariants are facts to prove, not typing
  artifacts.
* The source compares Euclidean vector lengths (`.length()`, a square
  root) against constant radii; we translate each comparison to the
  equivalent squared-distance comparison over `ℚ`.
* The physics integrator (`world.step`) and the click raycaster are
  external libraries.  They enter the model as parameters: `PhysStep`
  maps the pre-step player state (plus the applied movement force and
  jump-impulse flag) to its post-step state, and `rayHit : Bool` is the
  outcome of `raycaster.intersectObject(key.mesh)`.  All other bodies
  are static (mass 0) and are never moved by the integrator.
* `Math.random()` draws are explicit `ℚ` parameters, each assumed to lie
  in `[0, 1)`; `THREE.MathUtils.randFloat(lo, hi)` is `lo + r * (hi - lo)`.
* DOM text rendering via `Intl` formatters is presentation-only and is
  modelled by storing the displayed value together with the active
  locale; `setTimeout`-based clearing of transient HUD messages mutates
  only display state and is outside the model (we record the message
  that was shown).
-/

namespace Game

/-- `cannon-es` `Vec3` (also used for three.js vector positions). -/
structure Vec3 where
  x : ℚ
  y : ℚ
  z : ℚ
deriving DecidableEq, Repr

/-- `a.vsub b` from cannon-es. -/
def Vec3.vsub (a b : Vec3) : Vec3 := ⟨a.x - b.x, a.y - b.y, a.z - b.z⟩

/-- Squared length; the source uses `.length()` (the square root of this)
only in comparisons against nonnegative constants, which we state on
squares. -/
def Vec3.lengthSq (v : Vec3) : ℚ := v.x * v.x + v.y * v.y + v.z * v.z

/-- Squared distance between two positions. -/
def distSq (a b : Vec3) : ℚ := (a.vsub b).lengthSq

/-- `type KeyColor = "red" | "green" | "blue"` (main.ts line 23). -/
inductive KeyColor where
  | red
  | green
  | blue
deriving DecidableEq, Repr

/-- `type Locale = "en" | "zh" | "ar"` (main.ts line 24). -/
inductive Locale where
  | en
  | zh
  | ar
deriving DecidableEq, Repr

/-- The i18n string table entry type (main.ts lines 45-55). -/
structure Messages where
  score : String
  time : String
  keys : String
  noKey : String
  missionComplete : String
  missionFailed : String
  backScene1 : String
  enterScene2 : String
  colors : KeyColor → String

/-- `translations` (main.ts lines 57-91). -/
def translations : Locale → Messages
  | .en =>
    { score := "Score", time := "Time", keys := "Keys"
      noKey := "You don\x27t have that key!"
      missionComplete := "MISSION COMPLETE!"
      missionFailed := "MISSION FAILED"
      backScene1 := "Back to Scene 1"
      enterScene2 := "Entered Scene 2"
      colors := fun c => match c with
        | .red => "Red" | .green => "Green" | .blue => "Blue" }
  | .zh =>
    { score := "分数", time := "时间", keys := "钥匙"
      noKey := "你没有这个钥匙！"
      missionComplete := "任务完成！"
      missionFailed := "任务失败"
      backScene1 := "回到第一场景"
      enterScene2 := "进入第二场景"
      colors := fun c => match c with
        | .red => "红" | .green => "绿" | .blue => "蓝" }
  | .ar =>
    { score := "النقاط", time := "الوقت", keys := "المفاتيح"
      noKey := "ليس لديك هذا المفتاح!"
      missionComplete := "اكتملت المهمة!"
      missionFailed := "فشلت المهمة"
      backScene1 := "العودة إلى المرحلة 1"
      enterScene2 := "تم الدخول إلى المرحلة 2"
      colors := fun c => match c with
        | .red => "أحمر" | .green => "أخضر" | .blue => "أزرق" }

/-- `const inventory: Record<KeyColor, number>` (main.ts line 29).
Counts are modelled as `ℤ` so that nonnegativity is a provable invariant
rather than a typing artifact. -/
structure Inventory where
  red : ℤ
  green : ℤ
  blue : ℤ
deriving DecidableEq, Repr

/-- Read `inventory[c]`. -/
def Inventory.get (inv : Inventory) : KeyColor → ℤ
  | .red => inv.red
  | .green => inv.green
  | .blue => inv.blue

/-- `inventory[c] += d` (with `d = -1` for the decrement on a match). -/
def Inventory.add (inv : Inventory) (c : KeyColor) (d : ℤ) : Inventory :=
  match c with
  | .red => { inv with red := inv.red + d }
  | .green => { inv with green := inv.green + d }
  | .blue => { inv with blue := inv.blue + d }

/-- A cannon-es rigid body as far as this program uses it: the shape is
always `new CBox(size)` with `size` the half extents, `position` is the
constructor argument, and `mass = 0` bodies are made `STATIC`. -/
structure Body where
  id : ℕ
  size : Vec3
  pos : Vec3
  mass : ℚ
deriving DecidableEq, Repr

/-- The cannon-es `World`, restricted to the body set this program
manages through `addBody` / `removeBody`.  `nextId` gives fresh body
identities so `removeBody` removes exactly the requested body. -/
structure World where
  bodies : List Body
  nextId : ℕ
deriving DecidableEq, Repr

def World.addBody (w : World) (size pos : Vec3) (mass : ℚ) : Body × World :=
  let b : Body := { id := w.nextId, size := size, pos := pos, mass := mass }
  (b, { bodies := w.bodies ++ [b], nextId := w.nextId + 1 })

def World.removeBody (w : World) (id : ℕ) : World :=
  { w with bodies := w.bodies.filter (fun b => b.id ≠ id) }

def emptyWorld : World := { bodies := [], nextId := 0 }

/-- The render mesh, reduced to its transform position.  A freshly
constructed `THREE.Mesh` sits at the origin; `makeBox` never writes the
mesh position, which is only copied from the body by `syncBodyMesh`
during the frame loop. -/
structure Mesh where
  pos : Vec3
deriving DecidableEq, Repr

/-- The `{ body, mesh, size }` value returned by `makeBox`
(main.ts lines 215-241).  `bodyPos` mirrors `body.position`
(initialised from `pos.clone()`). -/
structure BoxObj where
  bodyId : ℕ
  bodyPos : Vec3
  mesh : Mesh
  size : Vec3
deriving DecidableEq, Repr

/-- `makeBox(size, pos, mass, color, material?)` (main.ts lines 215-241):
creates the body at `pos`, adds it to the world, creates the mesh (at the
three.js default origin — the source never sets `mesh.position` here) and
adds it to the scene.  Color and material do not affect spatial state and
are omitted. -/
def makeBox (size pos : Vec3) (mass : ℚ) (w : World) : BoxObj × World :=
  let bw := w.addBody size pos mass
  ({ bodyId := bw.1.id, bodyPos := pos, mesh := { pos := ⟨0, 0, 0⟩ }, size := size }, bw.2)

/-- `makeInvisibleWall` (main.ts lines 243-253): body only, no mesh. -/
def makeInvisibleWall (size pos : Vec3) (w : World) : World :=
  (w.addBody size pos 0).2

/-- `syncBodyMesh` (main.ts lines 257-260): one-way copy of the body
transform onto the mesh. -/
def syncBoxMesh (o : BoxObj) : BoxObj :=
  { o with mesh := { pos := o.bodyPos } }

/-- `THREE.MathUtils.randFloat(lo, hi)` with the `Math.random()` draw `r`
made explicit: `lo + r * (hi - lo)`. -/
def randFloat (lo hi r : ℚ) : ℚ := lo + r * (hi - lo)

/-- `Math.floor(Math.random() * n)` with the draw `r` explicit. -/
def pickIdx (n : ℕ) (r : ℚ) : ℕ := (⌊r * (n : ℚ)⌋).toNat

/-- `const keyColors: KeyColor[] = ["red", "green", "blue"]` (line 30). -/
def keyColors : List KeyColor := [.red, .green, .blue]

/-- `1 = arena, 2 = second room` (main.ts line 37). -/
inductive SceneTag where
  | one
  | two
deriving DecidableEq, Repr

/-- `const SCENE2_Z_OFFSET = 100` (main.ts line 40). -/
def SCENE2_Z_OFFSET : ℚ := 100

/-- The random draws consumed by one `spawnKey` call. -/
structure SpawnRand where
  rScene : ℚ
  rX : ℚ
  rZ : ℚ
deriving DecidableEq, Repr

/-- A key entity: the `{ ...keyObj, color, scene }` value of `spawnKey`. -/
structure KeyObj where
  box : BoxObj
  color : KeyColor
  scene : SceneTag
deriving DecidableEq, Repr

/-- `spawnKey(color)` (main.ts lines 382-396). -/
def spawnKey (color : KeyColor) (rnd : SpawnRand) (w : World) : KeyObj × World :=
  let size : Vec3 := ⟨0.3, 0.3, 0.3⟩
  let sceneIndex : SceneTag := if rnd.rScene < 1/2 then .one else .two
  let baseZ : ℚ := if sceneIndex = .one then 0 else SCENE2_Z_OFFSET
  let pos : Vec3 := ⟨randFloat (-19) 19 rnd.rX, 0.5, randFloat (-19) 19 rnd.rZ + baseZ⟩
  let bw := makeBox size pos 0 w
  ({ box := bw.1, color := color, scene := sceneIndex }, bw.2)

/-- The random draws consumed by one `spawnButton` call. -/
structure BtnRand where
  rColor : ℚ
  rScene : ℚ
  rQuad : ℚ
  rX : ℚ
  rZ : ℚ
deriving DecidableEq, Repr

/-- One entry of the `quadrants` array in `spawnButton`. -/
structure Quadrant where
  xMin : ℚ
  xMax : ℚ
  zMin : ℚ
  zMax : ℚ
deriving DecidableEq, Repr, Inhabited

/-- The `quadrants` array (main.ts lines 412-417). -/
def quadrants : List Quadrant :=
  [⟨-19, -1, -19, -1⟩, ⟨1, 19, -19, -1⟩, ⟨-19, -1, 1, 19⟩, ⟨1, 19, 1, 19⟩]

/-- A button entity: the `{ ...btn, color, scene }` value of `spawnButton`. -/
structure ButtonObj where
  box : BoxObj
  color : KeyColor
  scene : SceneTag
deriving DecidableEq, Repr

/-- `spawnButton()` (main.ts lines 403-430).  The emissive material
setting is render-only and omitted. -/
def spawnButton (rnd : BtnRand) (w : World) : ButtonObj × World :=
  let size : Vec3 := ⟨0.7, 0.3, 0.7⟩
  let colorNamePick : KeyColor := keyColors.getD (pickIdx 3 rnd.rColor) .red
  let sceneIndex : SceneTag := if rnd.rScene < 1/2 then .one else .two
  let baseZ : ℚ := if sceneIndex = .one then 0 else SCENE2_Z_OFFSET
  let q : Quadrant := quadrants.getD (pickIdx 4 rnd.rQuad) default
  let randX : ℚ := randFloat (q.xMin + 1.5) (q.xMax - 1.5) rnd.rX
  let randZLocal : ℚ := randFloat (q.zMin + 1.5) (q.zMax - 1.5) rnd.rZ
  let pos : Vec3 := ⟨randX, 0.3, randZLocal + baseZ⟩
  let bw := makeBox size pos 0 w
  ({ box := bw.1, color := colorNamePick, scene := sceneIndex }, bw.2)

/-- The player entity (`player` + its body fields used by the loop).
`fixedRotation`, damping and mass configuration live inside the external
integrator; the loop reads and writes `position`, `velocity` and
`angularVelocity`. -/
structure PlayerObj where
  pos : Vec3
  vel : Vec3
  angVel : Vec3
  mesh : Mesh
deriving DecidableEq, Repr

/-- HUD / DOM presentation state.  `Intl` number formatting is external:
we store the displayed value together with the locale of the active
formatter.  `msg` is the text of `hudMsg` while `display = "block"`. -/
structure Hud where
  msg : Option String
  scoreShown : ℤ
  timeShown : ℚ
  fmtLang : Locale
  keyBoxShown : Inventory
  keyBoxLang : Locale
  labelScore : String
  labelTime : String
  rtl : Bool
  bodyLang : Locale
  storedLang : Locale
deriving DecidableEq, Repr

/-- The mutable program state of main.ts: the ambient `let` variables,
the tracked entities, the physics world body set, and the HUD. -/
structure GameState where
  score : ℤ
  timeLeft : ℚ
  gameOver : Bool
  sceneState : SceneTag
  inventory : Inventory
  hitCooldown : ℚ
  userLang : Locale
  world : World
  player : PlayerObj
  key : KeyObj
  button : ButtonObj
  door1 : BoxObj
  door2 : BoxObj
  camPos : Vec3
  lightPos : Vec3
  hud : Hud
deriving DecidableEq, Repr

/-- `updateInventoryHUD()` (main.ts lines 124-131): renders the current
inventory through the current locale into `hudKeyBox`. -/
def updateInventoryHUD (s : GameState) : GameState :=
  { s with hud := { s.hud with keyBoxShown := s.inventory, keyBoxLang := s.userLang } }

/-- `applyLanguage(lang)` (main.ts lines 134-162). -/
def applyLanguage (lang : Locale) (s : GameState) : GameState :=
  let s1 := { s with
    userLang := lang
    hud := { s.hud with
      bodyLang := lang
      storedLang := lang
      fmtLang := lang
      rtl := lang = .ar
      labelScore := (translations lang).score
      labelTime := (translations lang).time
      scoreShown := s.score
      timeShown := s.timeLeft } }
  updateInventoryHUD s1

/-- The `#langButtons` click handler (main.ts lines 588-594):
`if (!lang || lang === userLang) return; applyLanguage(lang);`. -/
def langButtonClick (lang : Locale) (s : GameState) : GameState :=
  if lang = s.userLang then s else applyLanguage lang s

/-- `endGame(win)` (main.ts lines 577-583). -/
def endGame (win : Bool) (s : GameState) : GameState :=
  { s with
    gameOver := true
    hud := { s.hud with
      msg := some (if win then (translations s.userLang).missionComplete
                   else (translations s.userLang).missionFailed) } }

/-- `goToScene1()` (main.ts lines 348-357).  The `setTimeout` that later
hides the message is display-only and outside the model. -/
def goToScene1 (s : GameState) : GameState :=
  { s with
    sceneState := .one
    player := { s.player with vel := ⟨0, 0, 0⟩, angVel := ⟨0, 0, 0⟩, pos := ⟨0, 2, -6⟩ }
    hud := { s.hud with msg := some (translations s.userLang).backScene1 } }

/-- `goToScene2()` (main.ts lines 359-368). -/
def goToScene2 (s : GameState) : GameState :=
  { s with
    sceneState := .two
    player := { s.player with vel := ⟨0, 0, 0⟩, angVel := ⟨0, 0, 0⟩, pos := ⟨0, 2, SCENE2_Z_OFFSET⟩ }
    hud := { s.hud with msg := some (translations s.userLang).enterScene2 } }

/-- The `mousedown` pickup handler (main.ts lines 451-468).  `rayHit` is
the outcome of the external raycast against the tracked key mesh;
`rColor` and `rnd` are the draws of the respawn.  Note: the handler does
not test `gameOver`. -/
def mousedown (rayHit : Bool) (rColor : ℚ) (rnd : SpawnRand) (s : GameState) : GameState :=
  if rayHit then
    let s1 := { s with inventory := s.inventory.add s.key.color 1 }
    let s2 := updateInventoryHUD s1
    let w1 := s2.world.removeBody s2.key.box.bodyId
    let kw := spawnKey (keyColors.getD (pickIdx 3 rColor) .red) rnd w1
    { s2 with world := kw.2, key := kw.1 }
  else s

/-- `const keysPressed: Record<string, boolean>` restricted to the keys
the loop reads (w/a/s/d/space). -/
structure Keys where
  w : Bool
  a : Bool
  s : Bool
  d : Bool
  space : Bool
deriving DecidableEq, Repr

/-- The horizontal force assembled from the held keys
(main.ts lines 494-499, `moveForce = 25`). -/
def moveForce (k : Keys) : Vec3 :=
  ⟨(if k.a then -25 else 0) + (if k.d then 25 else 0), 0,
   (if k.w then -25 else 0) + (if k.s then 25 else 0)⟩

/-- The post-step player state produced by the player body fields. -/
structure PlayerPhys where
  pos : Vec3
  vel : Vec3
  angVel : Vec3
deriving DecidableEq, Repr

/-- The external physics step (`world.step(FIXED_STEP, dt, MAX_SUBSTEPS)`),
abstracted: given the applied movement force, whether the jump impulse
was applied, and the pre-step player state, it returns the post-step
player state.  All other bodies are static and unaffected. -/
def PhysStep : Type := Vec3 → Bool → PlayerPhys → PlayerPhys

/-- Lines 486-488: `timeLeft -= dt; if (timeLeft < 0) timeLeft = 0;`
followed by the HUD time render (which happens before the timeout
check of line 489). -/
def stepClock (dt : ℚ) (s : GameState) : GameState :=
  let tl0 := s.timeLeft - dt
  let tl := if tl0 < 0 then 0 else tl0
  { s with timeLeft := tl, hud := { s.hud with timeShown := tl } }

/-- Lines 491-515: cooldown decrement, movement-force assembly, jump
heuristic (`position.y <= PLAYER_SIZE.y + 0.55`), the physics step, and
the per-entity body→mesh syncs. -/
def prePhase (dt : ℚ) (keys : Keys) (phys : PhysStep) (s : GameState) : GameState :=
  let s1 := { s with hitCooldown := s.hitCooldown - dt }
  let force := moveForce keys
  let onGround : Bool := decide (s1.player.pos.y ≤ 0.4 + 0.55)
  let p := phys force (keys.space && onGround)
    { pos := s1.player.pos, vel := s1.player.vel, angVel := s1.player.angVel }
  let s2 := { s1 with player := { s1.player with pos := p.pos, vel := p.vel, angVel := p.angVel } }
  { s2 with
    player := { s2.player with mesh := { pos := s2.player.pos } }
    button := { s2.button with box := syncBoxMesh s2.button.box }
    key := { s2.key with box := syncBoxMesh s2.key.box }
    door1 := syncBoxMesh s2.door1
    door2 := syncBoxMesh s2.door2 }

/-- Lines 544-574: the door checks (threshold 1.5, squared: 2.25) in
source order — `d2` is computed after the first check, so it sees a
position already teleported by `goToScene2` — followed by the camera and
light exponential-smoothing follow (`lerp` factors 0.12 and 0.2; the
`lookAt` orientation is not part of the positional state). -/
def doorCamera (s : GameState) : GameState :=
  let d1Sq := distSq s.player.pos s.door1.bodyPos
  let s1 := if s.sceneState = .one ∧ d1Sq < 2.25 then goToScene2 s else s
  let d2Sq := distSq s1.player.pos s1.door2.bodyPos
  let s2 := if s1.sceneState = .two ∧ d2Sq < 2.25 then goToScene1 s1 else s1
  let lerp : Vec3 → Vec3 → ℚ → Vec3 := fun a b t =>
    ⟨a.x + (b.x - a.x) * t, a.y + (b.y - a.y) * t, a.z + (b.z - a.z) * t⟩
  let camTarget : Vec3 := ⟨s2.player.pos.x, s2.player.pos.y + 12, s2.player.pos.z + 10⟩
  let lightTarget : Vec3 := ⟨s2.player.pos.x + 8, s2.player.pos.y + 15, s2.player.pos.z + 6⟩
  let s3 := { s2 with camPos := lerp s2.camPos camTarget (12/100) }
  { s3 with lightPos := lerp s3.lightPos lightTarget (2/10) }

/-- Lines 527-539 of the successful-match branch: inventory decrement
and HUD render, score increment and HUD render, despawn + respawn of the
button.  The squash-scale pulse and its timed reset are render-only. -/
def applyHit (rnd : BtnRand) (s : GameState) : GameState :=
  let s2 := { s with inventory := s.inventory.add s.button.color (-1) }
  let s3 := updateInventoryHUD s2
  let s4 := { s3 with score := s3.score + 1 }
  let s5 := { s4 with hud := { s4.hud with scoreShown := s4.score } }
  let w1 := s5.world.removeBody s5.button.box.bodyId
  let bw := spawnButton rnd w1
  { s5 with world := bw.2, button := bw.1 }

/-- Line 541: `if (score >= 10) endGame(true)`. -/
def winCheck (s : GameState) : GameState :=
  if 10 ≤ s.score then endGame true s else s

/-- Lines 517-574: the button interaction (radius 1, squared threshold 1;
cooldown gate; wrong-key early return that skips the door and camera
steps; on success `applyHit` then the win check) followed by
`doorCamera`. -/
def buttonDoorCamera (rnd : BtnRand) (s : GameState) : GameState :=
  let dSq := distSq s.player.pos s.button.box.bodyPos
  if dSq < 1 ∧ s.hitCooldown ≤ 0 then
    let s1 := { s with hitCooldown := 0.3 }
    if s1.inventory.get s1.button.color ≤ 0 then
      { s1 with hud := { s1.hud with msg := some (translations s1.userLang).noKey } }
    else
      doorCamera (winCheck (applyHit rnd s1))
  else
    doorCamera s

/-- `update(dt)` (main.ts lines 483-575). -/
def update (dt : ℚ) (keys : Keys) (phys : PhysStep) (rnd : BtnRand) (s : GameState) : GameState :=
  if s.gameOver then s
  else
    let s1 := stepClock dt s
    if s1.timeLeft ≤ 0 then endGame false s1
    else buttonDoorCamera rnd (prePhase dt keys phys s1)

/-- `createArena(offsetZ)` (main.ts lines 270-325): ground, the two
cross walls (`WALL_H = 1.2`, `WALL_THICK = 0.4`, centre height
`WALL_H + 0.1`), and the four invisible boundary walls
(`BARRIER_THICK = 0.5`, `BARRIER_SIZE = 20`).  The grid helper is
render-only. -/
def createArena (offsetZ : ℚ) (w : World) : World :=
  let w1 := (makeBox ⟨20, 0.1, 20⟩ ⟨0, 0.1, offsetZ⟩ 0 w).2
  let w2 := (makeBox ⟨0.4, 1.2, 20⟩ ⟨0, 1.2 + 0.1, offsetZ⟩ 0 w1).2
  let w3 := (makeBox ⟨20, 1.2, 0.4⟩ ⟨0, 1.2 + 0.1, offsetZ⟩ 0 w2).2
  let w4 := makeInvisibleWall ⟨0.5, 5, 20⟩ ⟨-20.5, 5, offsetZ⟩ w3
  let w5 := makeInvisibleWall ⟨0.5, 5, 20⟩ ⟨20.5, 5, offsetZ⟩ w4
  let w6 := makeInvisibleWall ⟨20, 5, 0.5⟩ ⟨0, 5, offsetZ - 20.5⟩ w5
  makeInvisibleWall ⟨20, 5, 0.5⟩ ⟨0, 5, offsetZ + 20.5⟩ w6

/-- The HUD before `applyLanguage(userLang)` runs at line 599. -/
def initHud : Hud :=
  { msg := none, scoreShown := 0, timeShown := 60, fmtLang := .en,
    keyBoxShown := ⟨0, 0, 0⟩, keyBoxLang := .en, labelScore := "",
    labelTime := "", rtl := false, bodyLang := .en, storedLang := .en }

/-- Module initialization of main.ts in source order: the two arenas
(lines 327-328), the doors (333-346), the player (373-377), the first
key `spawnKey("red")` (line 398), the button (line 432), and the key
reassignment of line 433 — which does NOT remove the first key's body or
mesh — then `applyLanguage(userLang)` (line 599).  `lang` is the resolved
initial locale. -/
def initState (kRnd0 : SpawnRand) (bRnd : BtnRand) (kColor2 : ℚ) (kRnd2 : SpawnRand)
    (lang : Locale) : GameState :=
  let w0 := createArena 0 emptyWorld
  let wA := createArena SCENE2_Z_OFFSET w0
  let d1w := makeBox ⟨1, 1.8, 0.5⟩ ⟨15, 0.9, 20⟩ 0 wA
  let d2w := makeBox ⟨1, 1.8, 0.5⟩ ⟨15, 0.9, SCENE2_Z_OFFSET - 20⟩ 0 d1w.2
  let plw := makeBox ⟨0.4, 0.4, 0.4⟩ ⟨0, 2, -6⟩ 1 d2w.2
  let k0w := spawnKey .red kRnd0 plw.2
  let bw := spawnButton bRnd k0w.2
  let kw := spawnKey (keyColors.getD (pickIdx 3 kColor2) .red) kRnd2 bw.2
  let s : GameState :=
    { score := 0, timeLeft := 60, gameOver := false, sceneState := .one,
      inventory := ⟨0, 0, 0⟩, hitCooldown := 0, userLang := lang,
      world := kw.2,
      player := { pos := plw.1.bodyPos, vel := ⟨0, 0, 0⟩, angVel := ⟨0, 0, 0⟩,
                  mesh := plw.1.mesh },
      key := kw.1, button := bw.1, door1 := d1w.1, door2 := d2w.1,
      camPos := ⟨10, 12, 14⟩, lightPos := ⟨8, 15, 6⟩, hud := initHud }
  applyLanguage lang s

/-- Number of bodies in the world whose box shape has the given half
extents.  Key boxes are the only bodies of size `(0.3, 0.3, 0.3)` and
button boxes the only ones of size `(0.7, 0.3, 0.7)`. -/
def countBodiesOfSize (w : World) (sz : Vec3) : ℕ :=
  (w.bodies.filter (fun b => decide (b.size = sz))).length

def keyBodyCount (s : GameState) : ℕ := countBodiesOfSize s.world ⟨0.3, 0.3, 0.3⟩

def buttonBodyCount (s : GameState) : ℕ := countBodiesOfSize s.world ⟨0.7, 0.3, 0.7⟩

/-- Position of the door belonging to the currently active room. -/
def activeDoorPos (s : GameState) : Vec3 :=
  match s.sceneState with
  | .one => s.door1.bodyPos
  | .two => s.door2.bodyPos

/-- A point lies inside the axis-aligned box of half extents `size`
centred at `c`. -/
def insideBox (p c size : Vec3) : Prop :=
  |p.x - c.x| ≤ size.x ∧ |p.y - c.y| ≤ size.y ∧ |p.z - c.z| ≤ size.z

/-- The central cross-shaped wall of the room with offset `offsetZ`: the
union of the two cross-wall boxes built by `createArena`. -/
def insideCross (p : Vec3) (offsetZ : ℚ) : Prop :=
  insideBox p ⟨0, 1.3, offsetZ⟩ ⟨0.4, 1.2, 20⟩ ∨ insideBox p ⟨0, 1.3, offsetZ⟩ ⟨20, 1.2, 0.4⟩

/-- A `Math.random()` draw. -/
def validR (r : ℚ) : Prop := 0 ≤ r ∧ r < 1

def SpawnRand.valid (r : SpawnRand) : Prop := validR r.rScene ∧ validR r.rX ∧ validR r.rZ

def BtnRand.valid (r : BtnRand) : Prop :=
  validR r.rColor ∧ validR r.rScene ∧ validR r.rQuad ∧ validR r.rX ∧ validR r.rZ

/-- The states the program can reach: module initialization followed by
any interleaving of frame updates (`dt = now - last ≥ 0` for a monotone
clock), mouse clicks and language-button clicks, with every
`Math.random()` draw in `[0, 1)`. -/
inductive Reachable : GameState → Prop where
  | init : ∀ k0 b kc k2 lang, k0.valid → b.valid → validR kc → k2.valid →
      Reachable (initState k0 b kc k2 lang)
  | frame : ∀ dt keys phys rnd s, 0 ≤ dt → BtnRand.valid rnd → Reachable s →
      Reachable (update dt keys phys rnd s)
  | click : ∀ hit rc rnd s, validR rc → SpawnRand.valid rnd → Reachable s →
      Reachable (mousedown hit rc rnd s)
  | langClick : ∀ l s, Reachable s → Reachable (langButtonClick l s)

/-- The z-coordinate range every spawned button position lies in:
`[-17.5, 17.5]` for room 1 and `[82.5, 117.5]` for room 2. -/
def btnZOk (b : ButtonObj) : Prop :=
  (-(35/2) ≤ b.box.bodyPos.z ∧ b.box.bodyPos.z ≤ 35/2) ∨
  (165/2 ≤ b.box.bodyPos.z ∧ b.box.bodyPos.z ≤ 235/2)

/-- The inductive invariant of the reachable states, minus the door
separation (which `prePhase` temporarily breaks inside a frame). -/
def InvCore (s : GameState) : Prop :=
  0 ≤ s.timeLeft ∧
  (0 ≤ s.inventory.red ∧ 0 ≤ s.inventory.green ∧ 0 ≤ s.inventory.blue) ∧
  0 ≤ s.score ∧ s.score ≤ 10 ∧ (10 ≤ s.score → s.gameOver = true) ∧
  btnZOk s.button ∧
  s.door1.bodyPos = ⟨15, 0.9, 20⟩ ∧ s.door2.bodyPos = ⟨15, 0.9, 80⟩

/-- The full inductive invariant: at the end of every reachable step the
player is outside the 1.5 activation radius of the active room's door. -/
def Inv (s : GameState) : Prop :=
  InvCore s ∧ ¬ distSq s.player.pos (activeDoorPos s) < 2.25

theorem pickIdx_lt (n : ℕ) (hn : 0 < n) {r : ℚ} (h : validR r) : pickIdx n r < n := by
  have h1 : ⌊r * (n : ℚ)⌋ < (n : ℤ) := by
    rw [Int.floor_lt]
    push_cast
    have : r * n < 1 * n := by
      apply mul_lt_mul_of_pos_right h.2
      exact_mod_cast hn
    linarith
  have h2 : (0 : ℤ) ≤ ⌊r * (n : ℚ)⌋ := by
    apply Int.floor_nonneg.2
    have : (0 : ℚ) ≤ (n : ℚ) := by positivity
    exact mul_nonneg h.1 this
  unfold pickIdx
  omega

theorem pickIdx3_spec {r : ℚ} (h : validR r) :
    (r < 1/3 → pickIdx 3 r = 0) ∧ (1/3 ≤ r → r < 2/3 → pickIdx 3 r = 1) ∧
    (2/3 ≤ r → pickIdx 3 r = 2) := by
  refine ⟨fun h0 => ?_, fun h1a h1b => ?_, fun h2 => ?_⟩
  · have : ⌊r * (3 : ℚ)⌋ = 0 := by
      rw [Int.floor_eq_iff]
      constructor <;> push_cast <;> linarith [h.1]
    simp [pickIdx, this]
  · have : ⌊r * (3 : ℚ)⌋ = 1 := by
      rw [Int.floor_eq_iff]
      constructor <;> push_cast <;> linarith
    simp [pickIdx, this]
  · have : ⌊r * (3 : ℚ)⌋ = 2 := by
      rw [Int.floor_eq_iff]
      constructor <;> push_cast <;> linarith [h.2]
    simp [pickIdx, this]

/-- A coordinate lies in one of the two inset quadrant bands
`[-17.5, -2.5]` / `[2.5, 17.5]` shifted by `off`. -/
def inBand (v off : ℚ) : Prop :=
  (-(35/2) + off ≤ v ∧ v ≤ -(5/2) + off) ∨ (5/2 + off ≤ v ∧ v ≤ 35/2 + off)

/-- Every spawned button `x` lies in an inset quadrant band. -/
theorem spawnButton_x (rnd : BtnRand) (w : World) (h : rnd.valid) :
    inBand (spawnButton rnd w).1.box.bodyPos.x 0 := by
  obtain ⟨hc, hs, hq, hx, hz⟩ := h
  have h4 : pickIdx 4 rnd.rQuad = 0 ∨ pickIdx 4 rnd.rQuad = 1 ∨
      pickIdx 4 rnd.rQuad = 2 ∨ pickIdx 4 rnd.rQuad = 3 := by
    have := pickIdx_lt 4 (by norm_num) hq
    omega
  by_cases hsc : rnd.rScene < 1/2 <;>
    rcases h4 with h4 | h4 | h4 | h4 <;>
    simp [spawnButton, makeBox, World.addBody, quadrants, SCENE2_Z_OFFSET, randFloat,
      h4, hsc, inBand] <;>
    first
      | (left; constructor <;> nlinarith [hx.1, hx.2])
      | (right; constructor <;> nlinarith [hx.1, hx.2])

/-- Every spawned button `z` lies in an inset quadrant band shifted by
the room offset matching the scene tag. -/
theorem spawnButton_z (rnd : BtnRand) (w : World) (h : rnd.valid) :
    inBand (spawnButton rnd w).1.box.bodyPos.z
      (if (spawnButton rnd w).1.scene = SceneTag.one then 0 else 100) := by
  obtain ⟨hc, hs, hq, hx, hz⟩ := h
  have h4 : pickIdx 4 rnd.rQuad = 0 ∨ pickIdx 4 rnd.rQuad = 1 ∨
      pickIdx 4 rnd.rQuad = 2 ∨ pickIdx 4 rnd.rQuad = 3 := by
    have := pickIdx_lt 4 (by norm_num) hq
    omega
  by_cases hsc : rnd.rScene < 1/2 <;>
    rcases h4 with h4 | h4 | h4 | h4 <;>
    simp [spawnButton, makeBox, World.addBody, quadrants, SCENE2_Z_OFFSET, randFloat,
      h4, hsc, inBand] <;>
    first
      | (left; constructor <;> nlinarith [hz.1, hz.2])
      | (right; constructor <;> nlinarith [hz.1, hz.2])

/-- Every spawned button sits at height `y = 0.3`. -/
theorem spawnButton_y (rnd : BtnRand) (w : World) :
    (spawnButton rnd w).1.box.bodyPos.y = 0.3 := by
  simp [spawnButton, makeBox, World.addBody]

/-- The z-band invariant holds for every freshly spawned button. -/
theorem btnZOk_spawn (rnd : BtnRand) (w : World) (h : rnd.valid) :
    btnZOk (spawnButton rnd w).1 := by
  have hz := spawnButton_z rnd w h
  unfold btnZOk
  unfold inBand at hz
  split_ifs at hz <;>
    rcases hz with ⟨ha, hb⟩ | ⟨ha, hb⟩ <;>
    first
      | (left; constructor <;> linarith)
      | (right; constructor <;> linarith)

/-- Geometric separation: a player within the button activation radius
(distance 1) of any button satisfying the z-band invariant is outside
the door activation radius (distance 1.5) of both doors, because every
button z-band keeps a gap of at least 2.5 from both door z-planes
(20 and 80). -/
theorem nearButton_notNearDoor {p b d : Vec3}
    (hzB : (-(35/2) ≤ b.z ∧ b.z ≤ 35/2) ∨ (165/2 ≤ b.z ∧ b.z ≤ 235/2))
    (hdz : d.z = 20 ∨ d.z = 80)
    (hnear : distSq p b < 1) : ¬ distSq p d < 2.25 := by
  intro hlt
  simp only [distSq, Vec3.vsub, Vec3.lengthSq] at hnear hlt
  have hz1 : (p.z - b.z) * (p.z - b.z) < 1 := by
    nlinarith [mul_self_nonneg (p.x - b.x), mul_self_nonneg (p.y - b.y)]
  have hz2 : (p.z - d.z) * (p.z - d.z) < 2.25 := by
    nlinarith [mul_self_nonneg (p.x - d.x), mul_self_nonneg (p.y - d.y)]
  have ha : p.z - b.z < 1 := by nlinarith
  have hb : -1 < p.z - b.z := by nlinarith
  rcases hzB with ⟨hl, hr⟩ | ⟨hl, hr⟩ <;> rcases hdz with hd | hd <;> rw [hd] at hz2 <;> nlinarith

theorem doorCamera_score (s : GameState) : (doorCamera s).score = s.score := by
  simp only [doorCamera]
  split_ifs <;> rfl

theorem doorCamera_timeLeft (s : GameState) : (doorCamera s).timeLeft = s.timeLeft := by
  simp only [doorCamera]
  split_ifs <;> rfl

theorem doorCamera_gameOver (s : GameState) : (doorCamera s).gameOver = s.gameOver := by
  simp only [doorCamera]
  split_ifs <;> rfl

theorem doorCamera_inventory (s : GameState) : (doorCamera s).inventory = s.inventory := by
  simp only [doorCamera]
  split_ifs <;> rfl

theorem doorCamera_hitCooldown (s : GameState) :
    (doorCamera s).hitCooldown = s.hitCooldown := by
  simp only [doorCamera]
  split_ifs <;> rfl

theorem doorCamera_button (s : GameState) : (doorCamera s).button = s.button := by
  simp only [doorCamera]
  split_ifs <;> rfl

theorem doorCamera_key (s : GameState) : (doorCamera s).key = s.key := by
  simp only [doorCamera]
  split_ifs <;> rfl

theorem doorCamera_world (s : GameState) : (doorCamera s).world = s.world := by
  simp only [doorCamera]
  split_ifs <;> rfl

theorem doorCamera_userLang (s : GameState) : (doorCamera s).userLang = s.userLang := by
  simp only [doorCamera]
  split_ifs <;> rfl

theorem doorCamera_door1 (s : GameState) : (doorCamera s).door1 = s.door1 := by
  simp only [doorCamera]
  split_ifs <;> rfl

theorem doorCamera_door2 (s : GameState) : (doorCamera s).door2 = s.door2 := by
  simp only [doorCamera]
  split_ifs <;> rfl

/-- After `doorCamera` the player is always outside the activation
radius of the active room's door: either no door fired (so the player
was already outside the active radius), or a teleport moved the player
to a spawn point far from the destination room's door. -/
theorem doorCamera_notNear (s : GameState)
    (h1 : s.door1.bodyPos = ⟨15, 0.9, 20⟩) (h2 : s.door2.bodyPos = ⟨15, 0.9, 80⟩) :
    ¬ distSq (doorCamera s).player.pos (activeDoorPos (doorCamera s)) < 2.25 := by
  simp only [doorCamera]
  split_ifs with hc1 hc2 hc2
  · -- flip 1→2, then the second check re-fires: impossible at the spawn point
    exfalso
    rcases hc2 with ⟨-, hc2d⟩
    rw [show (goToScene2 s).player.pos = ⟨0, 2, 100⟩ from rfl] at hc2d
    rw [show (goToScene2 s).door2 = s.door2 from rfl, h2] at hc2d
    simp [distSq, Vec3.vsub, Vec3.lengthSq] at hc2d
    norm_num at hc2d
  · -- flip 1→2, second check quiet: far from door 2 at the spawn point
    simp only [activeDoorPos]
    rw [show (goToScene2 s).sceneState = SceneTag.two from rfl]
    rw [show (goToScene2 s).player.pos = ⟨0, 2, 100⟩ from rfl]
    rw [show (goToScene2 s).door2 = s.door2 from rfl, h2]
    simp [distSq, Vec3.vsub, Vec3.lengthSq]
    norm_num
  · -- no flip at door 1, flip 2→1: far from door 1 at the spawn point
    simp only [activeDoorPos]
    rw [show (goToScene1 s).sceneState = SceneTag.one from rfl]
    rw [show (goToScene1 s).player.pos = ⟨0, 2, -6⟩ from rfl]
    rw [show (goToScene1 s).door1 = s.door1 from rfl, h1]
    simp [distSq, Vec3.vsub, Vec3.lengthSq]
    norm_num
  · -- no flip at all: the player was outside the active door's radius
    simp only [activeDoorPos]
    cases hsc : s.sceneState with
    | one =>
      intro hd
      exact hc1 ⟨hsc, hd⟩
    | two =>
      intro hd
      exact hc2 ⟨hsc, hd⟩

/-- Decrementing a positive count keeps all counts nonnegative. -/
theorem inventory_dec_nonneg (inv : Inventory) (c : KeyColor)
    (h : ¬ inv.get c ≤ 0) (h0 : 0 ≤ inv.red ∧ 0 ≤ inv.green ∧ 0 ≤ inv.blue) :
    0 ≤ (inv.add c (-1)).red ∧ 0 ≤ (inv.add c (-1)).green ∧ 0 ≤ (inv.add c (-1)).blue := by
  cases c <;> simp [Inventory.add, Inventory.get] at * <;> omega

/-- Incrementing keeps all counts nonnegative. -/
theorem inventory_inc_nonneg (inv : Inventory) (c : KeyColor)
    (h0 : 0 ≤ inv.red ∧ 0 ≤ inv.green ∧ 0 ≤ inv.blue) :
    0 ≤ (inv.add c 1).red ∧ 0 ≤ (inv.add c 1).green ∧ 0 ≤ (inv.add c 1).blue := by
  cases c <;> simp [Inventory.add] at * <;> omega

/-- A player inside the button activation radius is outside the active
door's activation radius (both door positions being the fixed door
body positions). -/
theorem notNear_of_nearButton (s : GameState) (hbz : btnZOk s.button)
    (hd1 : s.door1.bodyPos = ⟨15, 0.9, 20⟩) (hd2 : s.door2.bodyPos = ⟨15, 0.9, 80⟩)
    (hn : distSq s.player.pos s.button.box.bodyPos < 1) :
    ¬ distSq s.player.pos (activeDoorPos s) < 2.25 := by
  apply nearButton_notNearDoor hbz ?_ hn
  cases hsc : s.sceneState <;> simp [activeDoorPos, hsc, hd1, hd2]

/-- `doorCamera` preserves the core invariant and restores the door
separation. -/
theorem doorCamera_inv (s : GameState) (h : InvCore s) : Inv (doorCamera s) := by
  obtain ⟨ht, hi, hs0, hs10, hsg, hbz, hd1, hd2⟩ := h
  refine ⟨⟨?_, ?_, ?_, ?_, ?_, ?_, ?_, ?_⟩, doorCamera_notNear s hd1 hd2⟩
  · rw [doorCamera_timeLeft]; exact ht
  · rw [doorCamera_inventory]; exact hi
  · rw [doorCamera_score]; exact hs0
  · rw [doorCamera_score]; exact hs10
  · rw [doorCamera_score, doorCamera_gameOver]; exact hsg
  · rw [doorCamera_button]; exact hbz
  · rw [doorCamera_door1]; exact hd1
  · rw [doorCamera_door2]; exact hd2

/-- `endGame` establishes the terminal flag, so the score/terminal
implication holds for free; all other core fields are untouched. -/
theorem invCore_endGame (w : Bool) (s : GameState) (ht : 0 ≤ s.timeLeft)
    (hi : 0 ≤ s.inventory.red ∧ 0 ≤ s.inventory.green ∧ 0 ≤ s.inventory.blue)
    (hs0 : 0 ≤ s.score) (hs10 : s.score ≤ 10) (hbz : btnZOk s.button)
    (hd1 : s.door1.bodyPos = ⟨15, 0.9, 20⟩) (hd2 : s.door2.bodyPos = ⟨15, 0.9, 80⟩) :
    InvCore (endGame w s) :=
  ⟨ht, hi, hs0, hs10, fun _ => rfl, hbz, hd1, hd2⟩

/-- `winCheck` preserves the core invariant pieces and establishes the
score/terminal implication. -/
theorem invCore_winCheck (s : GameState) (ht : 0 ≤ s.timeLeft)
    (hi : 0 ≤ s.inventory.red ∧ 0 ≤ s.inventory.green ∧ 0 ≤ s.inventory.blue)
    (hs0 : 0 ≤ s.score) (hs10 : s.score ≤ 10) (hbz : btnZOk s.button)
    (hd1 : s.door1.bodyPos = ⟨15, 0.9, 20⟩) (hd2 : s.door2.bodyPos = ⟨15, 0.9, 80⟩) :
    InvCore (winCheck s) := by
  unfold winCheck
  split_ifs with hw
  · exact invCore_endGame true s ht hi hs0 hs10 hbz hd1 hd2
  · exact ⟨ht, hi, hs0, hs10, fun habs => absurd habs hw, hbz, hd1, hd2⟩

/-- `buttonDoorCamera` preserves the full invariant on non-terminal
frames. -/
theorem buttonDoorCamera_inv (rnd : BtnRand) (s : GameState)
    (hr : rnd.valid) (hg : s.gameOver = false) (hc : InvCore s) :
    Inv (buttonDoorCamera rnd s) := by
  obtain ⟨ht, hi, hs0, hs10, hsg, hbz, hd1, hd2⟩ := hc
  have hscore9 : s.score ≤ 9 := by
    by_contra hgt
    have h10 : (10 : ℤ) ≤ s.score := by omega
    rw [hsg h10] at hg
    exact absurd hg (by simp)
  simp only [buttonDoorCamera]
  split_ifs with h1 h2
  · -- wrong-key early return
    exact ⟨⟨ht, hi, hs0, hs10, hsg, hbz, hd1, hd2⟩,
      notNear_of_nearButton s hbz hd1 hd2 h1.1⟩
  · -- successful match
    apply doorCamera_inv
    apply invCore_winCheck
    · exact ht
    · exact inventory_dec_nonneg s.inventory s.button.color h2 hi
    · show (0 : ℤ) ≤ s.score + 1
      omega
    · show s.score + 1 ≤ 10
      omega
    · exact btnZOk_spawn rnd (s.world.removeBody s.button.box.bodyId) hr
    · exact hd1
    · exact hd2
  · -- cooldown gate closed or player outside the radius
    exact doorCamera_inv s ⟨ht, hi, hs0, hs10, hsg, hbz, hd1, hd2⟩

/-- The clamp of line 487 keeps the clock nonnegative. -/
theorem stepClock_timeLeft_nonneg (dt : ℚ) (s : GameState) :
    0 ≤ (stepClock dt s).timeLeft := by
  simp only [stepClock]
  split_ifs with h
  · norm_num
  · exact not_lt.mp h

/-- One frame preserves the invariant. -/
theorem update_inv (dt : ℚ) (keys : Keys) (phys : PhysStep) (rnd : BtnRand)
    (s : GameState) (hr : rnd.valid) (h : Inv s) :
    Inv (update dt keys phys rnd s) := by
  obtain ⟨⟨ht, hi, hs0, hs10, hsg, hbz, hd1, hd2⟩, hnear⟩ := h
  simp only [update]
  split_ifs with hg htl
  · exact ⟨⟨ht, hi, hs0, hs10, hsg, hbz, hd1, hd2⟩, hnear⟩
  · -- timeout: endGame(false) on the clamped-clock state
    refine ⟨invCore_endGame false (stepClock dt s)
      (stepClock_timeLeft_nonneg dt s) hi hs0 hs10 hbz hd1 hd2, ?_⟩
    exact hnear
  · -- regular frame
    apply buttonDoorCamera_inv rnd _ hr
    · show s.gameOver = false
      simpa using hg
    · exact ⟨le_of_lt (lt_of_not_le htl), hi, hs0, hs10, hsg, hbz, hd1, hd2⟩

/-- A mouse click preserves the invariant (the pickup changes only the
inventory, the key entity and the world body set). -/
theorem mousedown_inv (hit : Bool) (rc : ℚ) (rnd : SpawnRand) (s : GameState)
    (h : Inv s) : Inv (mousedown hit rc rnd s) := by
  obtain ⟨⟨ht, hi, hs0, hs10, hsg, hbz, hd1, hd2⟩, hnear⟩ := h
  simp only [mousedown]
  split_ifs with hh
  · exact ⟨⟨ht, inventory_inc_nonneg s.inventory s.key.color hi,
      hs0, hs10, hsg, hbz, hd1, hd2⟩, hnear⟩
  · exact ⟨⟨ht, hi, hs0, hs10, hsg, hbz, hd1, hd2⟩, hnear⟩

/-- A language switch preserves the invariant (it touches only the HUD
and the locale). -/
theorem langButtonClick_inv (l : Locale) (s : GameState) (h : Inv s) :
    Inv (langButtonClick l s) := by
  obtain ⟨⟨ht, hi, hs0, hs10, hsg, hbz, hd1, hd2⟩, hnear⟩ := h
  simp only [langButtonClick]
  split_ifs with hh
  · exact ⟨⟨ht, hi, hs0, hs10, hsg, hbz, hd1, hd2⟩, hnear⟩
  · exact ⟨⟨ht, hi, hs0, hs10, hsg, hbz, hd1, hd2⟩, hnear⟩

/-- The initial state satisfies the invariant. -/
theorem initState_inv (k0 : SpawnRand) (b : BtnRand) (kc : ℚ) (k2 : SpawnRand)
    (lang : Locale) (hb : b.valid) : Inv (initState k0 b kc k2 lang) := by
  refine ⟨⟨?_, ?_, ?_, ?_, ?_, ?_, ?_, ?_⟩, ?_⟩
  · show (0 : ℚ) ≤ 60
    norm_num
  · refine ⟨?_, ?_, ?_⟩ <;> (show (0 : ℤ) ≤ 0) <;> norm_num
  · show (0 : ℤ) ≤ 0
    norm_num
  · show (0 : ℤ) ≤ 10
    norm_num
  · show (10 : ℤ) ≤ 0 → false = true
    intro habs
    exfalso
    omega
  · exact btnZOk_spawn b _ hb
  · rfl
  · show (⟨15, 0.9, SCENE2_Z_OFFSET - 20⟩ : Vec3) = ⟨15, 0.9, 80⟩
    simp only [SCENE2_Z_OFFSET, Vec3.mk.injEq]
    norm_num
  · show ¬ distSq ⟨0, 2, -6⟩ ⟨15, 0.9, 20⟩ < 2.25
    simp [distSq, Vec3.vsub, Vec3.lengthSq]
    norm_num

/-- Every reachable state satisfies the invariant. -/
theorem reachable_inv (s : GameState) (h : Reachable s) : Inv s := by
  induction h with
  | init k0 b kc k2 lang hk0 hb hkc hk2 => exact initState_inv k0 b kc k2 lang hb
  | frame dt keys phys rnd s hdt hrnd _ ih => exact update_inv dt keys phys rnd s hrnd ih
  | click hit rc rnd s hrc hrnd _ ih => exact mousedown_inv hit rc rnd s ih
  | langClick l s _ ih => exact langButtonClick_inv l s ih

/-- The clock hits zero this frame exactly when `dt` is at least the
remaining time. -/
theorem stepClock_timeout_iff (dt : ℚ) (s : GameState) :
    (stepClock dt s).timeLeft ≤ 0 ↔ s.timeLeft ≤ dt := by
  simp only [stepClock]
  split_ifs with h <;> constructor <;> intro h2 <;> linarith

/-- With a nonnegative `dt` and a nonnegative clock, the clamped clock
never increases. -/
theorem stepClock_timeLeft_le (dt : ℚ) (s : GameState) (hdt : 0 ≤ dt)
    (h0 : 0 ≤ s.timeLeft) : (stepClock dt s).timeLeft ≤ s.timeLeft := by
  simp only [stepClock]
  split_ifs with h <;> linarith

theorem winCheck_timeLeft (s : GameState) : (winCheck s).timeLeft = s.timeLeft := by
  unfold winCheck
  split_ifs <;> rfl

theorem winCheck_score (s : GameState) : (winCheck s).score = s.score := by
  unfold winCheck
  split_ifs <;> rfl

theorem winCheck_inventory (s : GameState) : (winCheck s).inventory = s.inventory := by
  unfold winCheck
  split_ifs <;> rfl

theorem winCheck_sceneState (s : GameState) : (winCheck s).sceneState = s.sceneState := by
  unfold winCheck
  split_ifs <;> rfl

/-- The button/door/camera phase never touches the clock. -/
theorem buttonDoorCamera_timeLeft (rnd : BtnRand) (s : GameState) :
    (buttonDoorCamera rnd s).timeLeft = s.timeLeft := by
  simp only [buttonDoorCamera]
  split_ifs with h1 h2
  · rfl
  · rw [doorCamera_timeLeft, winCheck_timeLeft]
    rfl
  · rw [doorCamera_timeLeft]

/-- When the player is outside both door radii, `doorCamera` changes
only the camera and light positions. -/
theorem doorCamera_quiet (s : GameState)
    (h1 : ¬ distSq s.player.pos s.door1.bodyPos < 2.25)
    (h2 : ¬ distSq s.player.pos s.door2.bodyPos < 2.25) :
    (doorCamera s).hud = s.hud ∧ (doorCamera s).sceneState = s.sceneState ∧
    (doorCamera s).player = s.player := by
  simp only [doorCamera]
  split_ifs with hc1 hc2 hc2
  · exact absurd hc1.2 h1
  · exact absurd hc1.2 h1
  · exact absurd hc2.2 h2
  · exact ⟨rfl, rfl, rfl⟩

/-- When the player is inside the active door's radius at door-check
time, the door interaction fires: tag flip, teleport to the destination
spawn point, velocity reset, transition message. -/
theorem doorCamera_flip (s : GameState)
    (hd1 : s.door1.bodyPos = ⟨15, 0.9, 20⟩) (hd2 : s.door2.bodyPos = ⟨15, 0.9, 80⟩)
    (hnear : distSq s.player.pos (activeDoorPos s) < 2.25) :
    (s.sceneState = SceneTag.one →
      (doorCamera s).sceneState = SceneTag.two ∧
      (doorCamera s).player.pos = ⟨0, 2, 100⟩ ∧
      (doorCamera s).player.vel = ⟨0, 0, 0⟩ ∧ (doorCamera s).player.angVel = ⟨0, 0, 0⟩ ∧
      (doorCamera s).hud.msg = some (translations s.userLang).enterScene2) ∧
    (s.sceneState = SceneTag.two →
      (doorCamera s).sceneState = SceneTag.one ∧
      (doorCamera s).player.pos = ⟨0, 2, -6⟩ ∧
      (doorCamera s).player.vel = ⟨0, 0, 0⟩ ∧ (doorCamera s).player.angVel = ⟨0, 0, 0⟩ ∧
      (doorCamera s).hud.msg = some (translations s.userLang).backScene1) := by
  simp only [doorCamera]
  split_ifs with hc1 hc2 hc2
  · -- flip 1→2 and immediate 2→1 re-fire: impossible at the spawn point
    exfalso
    rcases hc2 with ⟨-, hc2d⟩
    rw [show (goToScene2 s).player.pos = ⟨0, 2, 100⟩ from rfl] at hc2d
    rw [show (goToScene2 s).door2 = s.door2 from rfl, hd2] at hc2d
    simp [distSq, Vec3.vsub, Vec3.lengthSq] at hc2d
    norm_num at hc2d
  · -- flip 1→2
    constructor
    · intro _
      exact ⟨rfl, rfl, rfl, rfl, rfl⟩
    · intro h2
      rw [hc1.1] at h2
      exact absurd h2 (by simp)
  · -- flip 2→1
    constructor
    · intro h1'
      rw [h1'] at hc2
      exact absurd hc2.1 (by simp)
    · intro _
      exact ⟨rfl, rfl, rfl, rfl, rfl⟩
  · -- no flip: contradicts the proximity hypothesis
    exfalso
    cases hsc : s.sceneState with
    | one =>
      apply hc1
      refine ⟨hsc, ?_⟩
      rw [show activeDoorPos s = s.door1.bodyPos from by simp [activeDoorPos, hsc]] at hnear
      exact hnear
    | two =>
      apply hc2
      refine ⟨hsc, ?_⟩
      rw [show activeDoorPos s = s.door2.bodyPos from by simp [activeDoorPos, hsc]] at hnear
      exact hnear

/-- Concrete fixture: all random draws 0. -/
def spawn0 : SpawnRand := ⟨0, 0, 0⟩

/-- Concrete fixture: all random draws 0. -/
def rnd0 : BtnRand := ⟨0, 0, 0, 0, 0⟩

/-- Concrete fixture: no key held down. -/
def keys0 : Keys := ⟨false, false, false, false, false⟩

/-- Concrete fixture: an identity physics step (nothing moves). -/
def phys0 : PhysStep := fun _ _ p => p

/-- Concrete fixture: a physics step that lands the player at `v`. -/
def physTo (v : Vec3) : PhysStep := fun _ _ p => ⟨v, p.vel, p.angVel⟩

/-- Concrete fixture: the initial state with every draw 0 and locale en. -/
def initEn : GameState := initState spawn0 rnd0 0 spawn0 .en

theorem validR_zero : validR 0 := ⟨le_refl 0, by norm_num⟩

theorem spawn0_valid : SpawnRand.valid spawn0 := ⟨validR_zero, validR_zero, validR_zero⟩

theorem rnd0_valid : BtnRand.valid rnd0 :=
  ⟨validR_zero, validR_zero, validR_zero, validR_zero, validR_zero⟩

theorem pickIdx_zero (n : ℕ) : pickIdx n 0 = 0 := by
  simp [pickIdx]

/-- With all-zero draws the button spawns in quadrant 0 of room 1 at
`(-17.5, 0.3, -17.5)` with the first palette color (red). -/
theorem spawnButton_rnd0 (w : World) :
    (spawnButton rnd0 w).1.box.bodyPos = ⟨-(35/2), 0.3, -(35/2)⟩ ∧
    (spawnButton rnd0 w).1.color = KeyColor.red ∧
    (spawnButton rnd0 w).1.scene = SceneTag.one := by
  refine ⟨?_, ?_, ?_⟩ <;>
    simp [spawnButton, makeBox, World.addBody, quadrants, keyColors, randFloat,
      SCENE2_Z_OFFSET, pickIdx_zero, rnd0] <;>
    norm_num [Vec3.mk.injEq]

/-- The wrong-key rejection: inside the radius, cooldown expired and no
key of the required color — the frame ends with only the cooldown reset
and the transient message. -/
theorem reject_frame (rnd : BtnRand) (s : GameState)
    (hn : distSq s.player.pos s.button.box.bodyPos < 1)
    (hcd : s.hitCooldown ≤ 0) (hz : s.inventory.get s.button.color ≤ 0) :
    buttonDoorCamera rnd s =
      { s with
          hitCooldown := 0.3
          hud := { s.hud with msg := some (translations s.userLang).noKey } } := by
  simp only [buttonDoorCamera]
  rw [if_pos ⟨hn, hcd⟩, if_pos hz]

/-- The successful match: score up by one, inventory decremented, the
button replaced; reaching 10 triggers the win transition with the
mission-complete message preserved through the (necessarily quiet) door
phase. -/
theorem success_frame (rnd : BtnRand) (s : GameState) (hbz : btnZOk s.button)
    (hd1 : s.door1.bodyPos = ⟨15, 0.9, 20⟩) (hd2 : s.door2.bodyPos = ⟨15, 0.9, 80⟩)
    (hn : distSq s.player.pos s.button.box.bodyPos < 1)
    (hcd : s.hitCooldown ≤ 0) (hinv : 0 < s.inventory.get s.button.color) :
    (buttonDoorCamera rnd s).score = s.score + 1 ∧
    (buttonDoorCamera rnd s).inventory = s.inventory.add s.button.color (-1) ∧
    (buttonDoorCamera rnd s).sceneState = s.sceneState ∧
    (10 ≤ s.score + 1 →
      (buttonDoorCamera rnd s).gameOver = true ∧
      (buttonDoorCamera rnd s).hud.msg = some (translations s.userLang).missionComplete) ∧
    (¬ 10 ≤ s.score + 1 → (buttonDoorCamera rnd s).gameOver = s.gameOver) := by
  have hquiet1 : ¬ distSq s.player.pos s.door1.bodyPos < 2.25 := by
    apply nearButton_notNearDoor hbz _ hn
    rw [hd1]
    exact Or.inl rfl
  have hquiet2 : ¬ distSq s.player.pos s.door2.bodyPos < 2.25 := by
    apply nearButton_notNearDoor hbz _ hn
    rw [hd2]
    exact Or.inr rfl
  simp only [buttonDoorCamera]
  rw [if_pos ⟨hn, hcd⟩, if_neg (not_le.mpr hinv)]
  by_cases hw : (10 : ℤ) ≤ s.score + 1
  · have hwin : winCheck (applyHit rnd { s with hitCooldown := 0.3 }) =
        endGame true (applyHit rnd { s with hitCooldown := 0.3 }) := by
      unfold winCheck
      exact if_pos hw
    rw [hwin]
    obtain ⟨q1, q2, q3⟩ := doorCamera_quiet
      (endGame true (applyHit rnd { s with hitCooldown := 0.3 })) hquiet1 hquiet2
    refine ⟨?_, ?_, ?_, fun _ => ⟨?_, ?_⟩, fun habs => absurd hw habs⟩
    · rw [doorCamera_score]; rfl
    · rw [doorCamera_inventory]; rfl
    · rw [q2]; rfl
    · rw [doorCamera_gameOver]; rfl
    · rw [q1]; rfl
  · have hnowin : winCheck (applyHit rnd { s with hitCooldown := 0.3 }) =
        applyHit rnd { s with hitCooldown := 0.3 } := by
      unfold winCheck
      exact if_neg hw
    rw [hnowin]
    obtain ⟨q1, q2, q3⟩ := doorCamera_quiet
      (applyHit rnd { s with hitCooldown := 0.3 }) hquiet1 hquiet2
    refine ⟨?_, ?_, ?_, fun habs => absurd habs hw, fun _ => ?_⟩
    · rw [doorCamera_score]; rfl
    · rw [doorCamera_inventory]; rfl
    · rw [q2]; rfl
    · rw [doorCamera_gameOver]; rfl

/-- The concrete button of the all-zero-draw initial state. -/
theorem initEn_button_pos : initEn.button.box.bodyPos = ⟨-(35/2), 0.3, -(35/2)⟩ := by
  norm_num [initEn, initState, createArena, makeBox, makeInvisibleWall, World.addBody,
    spawnKey, spawnButton, applyLanguage, updateInventoryHUD, emptyWorld,
    SCENE2_Z_OFFSET, quadrants, randFloat, keyColors, pickIdx_zero, spawn0, rnd0,
    Vec3.mk.injEq]

/-- The concrete button color of the all-zero-draw initial state. -/
theorem initEn_button_color : initEn.button.color = KeyColor.red := by
  norm_num [initEn, initState, createArena, makeBox, makeInvisibleWall, World.addBody,
    spawnKey, spawnButton, applyLanguage, updateInventoryHUD, emptyWorld,
    SCENE2_Z_OFFSET, quadrants, randFloat, keyColors, pickIdx_zero, spawn0, rnd0]

/-- With all-zero draws the respawned key of line 433 is red. -/
theorem initEn_key_color : initEn.key.color = KeyColor.red := by
  show keyColors.getD (pickIdx 3 (0 : ℚ)) KeyColor.red = KeyColor.red
  simp [pickIdx_zero, keyColors]

/-- `Reachable` holds of the all-zero-draw initial state. -/
theorem initEn_reachable : Reachable initEn :=
  Reachable.init spawn0 rnd0 0 spawn0 .en spawn0_valid rnd0_valid validR_zero spawn0_valid

/-- C1: for every frame update with elapsed time `dt ≥ 0` the
time-remaining value after the update is at most its value before, and
along every reachable execution (every sequence of frames, clicks and
language switches up to and beyond the terminal state) it is never
negative. -/
theorem c1_time_monotone_nonneg (s : GameState) (h : Reachable s) :
    0 ≤ s.timeLeft ∧
    ∀ dt keys phys rnd, 0 ≤ dt →
      (update dt keys phys rnd s).timeLeft ≤ s.timeLeft := by
  have hI := reachable_inv s h
  refine ⟨hI.1.1, ?_⟩
  intro dt keys phys rnd hdt
  simp only [update]
  split_ifs with hg htl
  · exact le_refl _
  · show (stepClock dt s).timeLeft ≤ s.timeLeft
    exact stepClock_timeLeft_le dt s hdt hI.1.1
  · rw [buttonDoorCamera_timeLeft]
    show (stepClock dt s).timeLeft ≤ s.timeLeft
    exact stepClock_timeLeft_le dt s hdt hI.1.1

/-- C1 witness: at the initial state, one frame of one second. -/
theorem c1_witness :
    0 ≤ initEn.timeLeft ∧
    (update 1 keys0 phys0 rnd0 initEn).timeLeft ≤ initEn.timeLeft := by
  have h := c1_time_monotone_nonneg initEn initEn_reachable
  exact ⟨h.1, h.2 1 keys0 phys0 rnd0 (by norm_num)⟩

/-- C5: when the decremented clock reaches (or is clamped to) zero, the
frame transitions to the terminal lose state with the mission-failed
message and nothing else happens in that frame: no cooldown decrement,
no movement force or physics step, no button or door check, no camera
or light update. -/
theorem c5_timeout_lose (s : GameState) (dt : ℚ) (keys : Keys) (phys : PhysStep)
    (rnd : BtnRand) (hg : s.gameOver = false) (ht : s.timeLeft ≤ dt) :
    (update dt keys phys rnd s).gameOver = true ∧
    (update dt keys phys rnd s).hud.msg = some (translations s.userLang).missionFailed ∧
    (update dt keys phys rnd s).timeLeft =
      (if s.timeLeft - dt < 0 then 0 else s.timeLeft - dt) ∧
    (update dt keys phys rnd s).score = s.score ∧
    (update dt keys phys rnd s).inventory = s.inventory ∧
    (update dt keys phys rnd s).hitCooldown = s.hitCooldown ∧
    (update dt keys phys rnd s).player = s.player ∧
    (update dt keys phys rnd s).key = s.key ∧
    (update dt keys phys rnd s).button = s.button ∧
    (update dt keys phys rnd s).world = s.world ∧
    (update dt keys phys rnd s).sceneState = s.sceneState ∧
    (update dt keys phys rnd s).camPos = s.camPos ∧
    (update dt keys phys rnd s).lightPos = s.lightPos := by
  have hupd : update dt keys phys rnd s = endGame false (stepClock dt s) := by
    simp only [update]
    rw [if_neg (by simp [hg]), if_pos ((stepClock_timeout_iff dt s).mpr ht)]
  rw [hupd]
  exact ⟨rfl, rfl, rfl, rfl, rfl, rfl, rfl, rfl, rfl, rfl, rfl, rfl, rfl⟩

/-- C5 witness: a 61-second frame at the fresh initial state (60 s
clock). -/
theorem c5_witness :
    initEn.gameOver = false ∧ initEn.timeLeft ≤ 61 ∧
    (update 61 keys0 phys0 rnd0 initEn).gameOver = true ∧
    (update 61 keys0 phys0 rnd0 initEn).hud.msg =
      some (translations Locale.en).missionFailed ∧
    (update 61 keys0 phys0 rnd0 initEn).score = initEn.score := by
  have hle : initEn.timeLeft ≤ 61 := by
    show (60 : ℚ) ≤ 61
    norm_num
  have h := c5_timeout_lose initEn 61 keys0 phys0 rnd0 rfl hle
  exact ⟨rfl, hle, h.1, h.2.1, h.2.2.2.1⟩

/-- C4 (counterexample): after a timeout has set the terminal flag, a
mouse click whose raycast hits the key still increments the red
inventory count from 0 to 1 (and despawns/respawns the key), so the
claim that no further game-state mutation can occur after game over is
false for input events. -/
theorem c4_counterexample :
    (update 61 keys0 phys0 rnd0 initEn).gameOver = true ∧
    (update 61 keys0 phys0 rnd0 initEn).inventory.red = 0 ∧
    (mousedown true 0 spawn0 (update 61 keys0 phys0 rnd0 initEn)).inventory.red = 1 := by
  have hupd : update 61 keys0 phys0 rnd0 initEn = endGame false (stepClock 61 initEn) := by
    simp only [update]
    rw [if_neg (show ¬ initEn.gameOver = true from Bool.false_ne_true),
      if_pos ((stepClock_timeout_iff 61 initEn).mpr (by show (60 : ℚ) ≤ 61; norm_num))]
  rw [hupd]
  refine ⟨rfl, rfl, ?_⟩
  have hcol : (endGame false (stepClock 61 initEn)).key.color = KeyColor.red :=
    initEn_key_color
  simp only [mousedown]
  rw [if_pos trivial]
  simp only [updateInventoryHUD]
  rw [hcol]
  decide

/-- C4 (amended): once the terminal flag is set, frame updates are
complete no-ops and language clicks leave all game state unchanged; the
mouse pickup handler, however, is not gated on the flag: it leaves the
score, the clock, the terminal flag, the button, the player and the
room tag unchanged, but may still mutate the inventory, the key and the
world body set. -/
theorem c4_amended_terminal_effects (s : GameState) (hg : s.gameOver = true) :
    (∀ dt keys phys rnd, update dt keys phys rnd s = s) ∧
    (∀ l, (langButtonClick l s).score = s.score ∧
      (langButtonClick l s).timeLeft = s.timeLeft ∧
      (langButtonClick l s).inventory = s.inventory ∧
      (langButtonClick l s).gameOver = true ∧
      (langButtonClick l s).world = s.world ∧
      (langButtonClick l s).player = s.player ∧
      (langButtonClick l s).key = s.key ∧
      (langButtonClick l s).button = s.button ∧
      (langButtonClick l s).sceneState = s.sceneState) ∧
    (∀ hit rc rnd, (mousedown hit rc rnd s).score = s.score ∧
      (mousedown hit rc rnd s).timeLeft = s.timeLeft ∧
      (mousedown hit rc rnd s).gameOver = true ∧
      (mousedown hit rc rnd s).button = s.button ∧
      (mousedown hit rc rnd s).player = s.player ∧
      (mousedown hit rc rnd s).sceneState = s.sceneState) := by
  refine ⟨?_, ?_, ?_⟩
  · intro dt keys phys rnd
    simp only [update]
    rw [if_pos hg]
  · intro l
    simp only [langButtonClick]
    split_ifs
    · exact ⟨rfl, rfl, rfl, hg, rfl, rfl, rfl, rfl, rfl⟩
    · exact ⟨rfl, rfl, rfl, hg, rfl, rfl, rfl, rfl, rfl⟩
  · intro hit rc rnd
    simp only [mousedown]
    split_ifs
    · exact ⟨rfl, rfl, hg, rfl, rfl, rfl⟩
    · exact ⟨rfl, rfl, hg, rfl, rfl, rfl⟩

/-- C4 witness: the amended statement applied at the concrete
timed-out terminal state. -/
theorem c4_witness :
    (update 61 keys0 phys0 rnd0 initEn).gameOver = true ∧
    update 1 keys0 phys0 rnd0 (update 61 keys0 phys0 rnd0 initEn) =
      update 61 keys0 phys0 rnd0 initEn ∧
    (mousedown true 0 spawn0 (update 61 keys0 phys0 rnd0 initEn)).score =
      (update 61 keys0 phys0 rnd0 initEn).score := by
  have hg : (update 61 keys0 phys0 rnd0 initEn).gameOver = true := by
    simp only [update]
    rw [if_neg (show ¬ initEn.gameOver = true from Bool.false_ne_true),
      if_pos ((stepClock_timeout_iff 61 initEn).mpr (by show (60 : ℚ) ≤ 61; norm_num))]
    rfl
  have h := c4_amended_terminal_effects (update 61 keys0 phys0 rnd0 initEn) hg
  exact ⟨hg, h.1 1 keys0 phys0 rnd0, (h.2.2 true 0 spawn0).1⟩

/-- C7 (code evaluation): immediately after module initialization the
physics world holds TWO key bodies — the `spawnKey("red")` of line 398
is never removed when `key` is reassigned at line 433 — while exactly
one button body exists. -/
theorem c7_two_keys_after_init :
    keyBodyCount initEn = 2 ∧ buttonBodyCount initEn = 1 := by
  constructor <;>
    norm_num [keyBodyCount, buttonBodyCount, countBodiesOfSize, initEn, initState,
      createArena, makeBox, makeInvisibleWall, World.addBody, spawnKey, spawnButton,
      applyLanguage, updateInventoryHUD, emptyWorld, SCENE2_Z_OFFSET, quadrants,
      randFloat, keyColors, pickIdx_zero, spawn0, rnd0, List.filter,
      decide_eq_true_eq, Vec3.mk.injEq]

/-- C8 (counterexample): with concrete draws, the freshly spawned
button's render-mesh transform is the three.js default origin, not the
position that was passed to the physics body constructor, because
`makeBox` never writes `mesh.position`. -/
theorem c8_counterexample :
    (spawnButton rnd0 emptyWorld).1.box.mesh.pos = ⟨0, 0, 0⟩ ∧
    (spawnButton rnd0 emptyWorld).1.box.bodyPos = ⟨-(35/2), 0.3, -(35/2)⟩ ∧
    ¬ (spawnButton rnd0 emptyWorld).1.box.mesh.pos =
        (spawnButton rnd0 emptyWorld).1.box.bodyPos := by
  refine ⟨rfl, (spawnButton_rnd0 emptyWorld).1, ?_⟩
  rw [(spawnButton_rnd0 emptyWorld).1,
    show (spawnButton rnd0 emptyWorld).1.box.mesh.pos = (⟨0, 0, 0⟩ : Vec3) from rfl]
  norm_num [Vec3.mk.injEq]

/-- C8 (amended): for every spawn the physics body's position equals
the position passed to the constructor, the fresh render mesh sits at
the engine-default origin, and the render transform equals the body
position only after the per-frame `syncBodyMesh` copy. -/
theorem c8_amended_roundtrip (size pos : Vec3) (mass : ℚ) (w : World) :
    (makeBox size pos mass w).1.bodyPos = pos ∧
    (makeBox size pos mass w).1.mesh.pos = ⟨0, 0, 0⟩ ∧
    (syncBoxMesh (makeBox size pos mass w).1).mesh.pos = pos :=
  ⟨rfl, rfl, rfl⟩

/-- C10: a language switch (directly or through the language-button
handler) changes only presentation state — the score, clock, inventory,
terminal flag, room tag, entities, world body set and camera/light are
all untouched. -/
theorem c10_language_pure_presentation (lang : Locale) (s : GameState) :
    ((applyLanguage lang s).score = s.score ∧
      (applyLanguage lang s).timeLeft = s.timeLeft ∧
      (applyLanguage lang s).inventory = s.inventory ∧
      (applyLanguage lang s).gameOver = s.gameOver ∧
      (applyLanguage lang s).sceneState = s.sceneState ∧
      (applyLanguage lang s).hitCooldown = s.hitCooldown ∧
      (applyLanguage lang s).player = s.player ∧
      (applyLanguage lang s).key = s.key ∧
      (applyLanguage lang s).button = s.button ∧
      (applyLanguage lang s).door1 = s.door1 ∧
      (applyLanguage lang s).door2 = s.door2 ∧
      (applyLanguage lang s).world = s.world ∧
      (applyLanguage lang s).camPos = s.camPos ∧
      (applyLanguage lang s).lightPos = s.lightPos) ∧
    ((langButtonClick lang s).score = s.score ∧
      (langButtonClick lang s).timeLeft = s.timeLeft ∧
      (langButtonClick lang s).inventory = s.inventory ∧
      (langButtonClick lang s).gameOver = s.gameOver ∧
      (langButtonClick lang s).sceneState = s.sceneState ∧
      (langButtonClick lang s).player = s.player ∧
      (langButtonClick lang s).world = s.world) := by
  constructor
  · exact ⟨rfl, rfl, rfl, rfl, rfl, rfl, rfl, rfl, rfl, rfl, rfl, rfl, rfl, rfl⟩
  · simp only [langButtonClick]
    split_ifs
    · exact ⟨rfl, rfl, rfl, rfl, rfl, rfl, rfl⟩
    · exact ⟨rfl, rfl, rfl, rfl, rfl, rfl, rfl⟩

/-- C2: along every reachable execution the score never exceeds the win
threshold 10 and reaching 10 forces the terminal flag in the same frame;
and every successful button interaction (within radius 1 with the
cooldown expired and the required color available) increments the score
by exactly 1, with the win transition (terminal flag plus the
mission-complete message) firing the moment the new score reaches 10,
regardless of the remaining time. -/
theorem c2_score_win (s : GameState) (h : Reachable s) :
    (s.score ≤ 10 ∧ (10 ≤ s.score → s.gameOver = true)) ∧
    ∀ dt keys phys rnd, s.gameOver = false → ¬ (stepClock dt s).timeLeft ≤ 0 →
      distSq (prePhase dt keys phys (stepClock dt s)).player.pos
          (prePhase dt keys phys (stepClock dt s)).button.box.bodyPos < 1 →
      (prePhase dt keys phys (stepClock dt s)).hitCooldown ≤ 0 →
      0 < (prePhase dt keys phys (stepClock dt s)).inventory.get
          (prePhase dt keys phys (stepClock dt s)).button.color →
      (update dt keys phys rnd s).score = s.score + 1 ∧
      (10 ≤ s.score + 1 →
        (update dt keys phys rnd s).gameOver = true ∧
        (update dt keys phys rnd s).hud.msg =
          some (translations s.userLang).missionComplete) := by
  have hI := reachable_inv s h
  obtain ⟨⟨ht, hi, hs0, hs10, hsg, hbz, hd1, hd2⟩, hnear⟩ := hI
  refine ⟨⟨hs10, hsg⟩, ?_⟩
  intro dt keys phys rnd hg htl hdist hcd hpos
  have hupd : update dt keys phys rnd s =
      buttonDoorCamera rnd (prePhase dt keys phys (stepClock dt s)) := by
    simp only [update]
    rw [if_neg (by simp [hg]), if_neg htl]
  rw [hupd]
  have hout := success_frame rnd (prePhase dt keys phys (stepClock dt s))
    hbz hd1 hd2 hdist hcd hpos
  exact ⟨hout.1, fun hw => hout.2.2.2.1 hw⟩

/-- The one state used by the C2 witness: the initial state after a
click that picked up the (red) key, so one red key is held. -/
def clickedState : GameState := mousedown true 0 spawn0 initEn

theorem clickedState_reachable : Reachable clickedState :=
  Reachable.click true 0 spawn0 initEn validR_zero spawn0_valid initEn_reachable

theorem clickedState_inventory : clickedState.inventory = ⟨1, 0, 0⟩ := by
  simp only [clickedState, mousedown]
  rw [if_pos trivial]
  simp only [updateInventoryHUD]
  rw [initEn_key_color]
  decide

/-- C2 witness: at the held-key state, a frame landing the player on the
concrete button position scores exactly one point. -/
theorem c2_witness :
    (update 1 keys0 (physTo ⟨-(35/2), 0.3, -(35/2)⟩) rnd0 clickedState).score =
      clickedState.score + 1 := by
  have htl : ¬ (stepClock 1 clickedState).timeLeft ≤ 0 := by
    intro habs
    have h2 : clickedState.timeLeft ≤ 1 := (stepClock_timeout_iff 1 clickedState).mp habs
    have h3 : (60 : ℚ) ≤ 1 := h2
    norm_num at h3
  have hb : (prePhase 1 keys0 (physTo ⟨-(35/2), 0.3, -(35/2)⟩)
      (stepClock 1 clickedState)).button.box.bodyPos = ⟨-(35/2), 0.3, -(35/2)⟩ :=
    initEn_button_pos
  have hbc : (prePhase 1 keys0 (physTo ⟨-(35/2), 0.3, -(35/2)⟩)
      (stepClock 1 clickedState)).button.color = KeyColor.red :=
    initEn_button_color
  have hdist : distSq (prePhase 1 keys0 (physTo ⟨-(35/2), 0.3, -(35/2)⟩)
      (stepClock 1 clickedState)).player.pos
      (prePhase 1 keys0 (physTo ⟨-(35/2), 0.3, -(35/2)⟩)
        (stepClock 1 clickedState)).button.box.bodyPos < 1 := by
    rw [hb]
    show distSq ⟨-(35/2), 0.3, -(35/2)⟩ ⟨-(35/2), 0.3, -(35/2)⟩ < 1
    norm_num [distSq, Vec3.vsub, Vec3.lengthSq]
  have hcd : (prePhase 1 keys0 (physTo ⟨-(35/2), 0.3, -(35/2)⟩)
      (stepClock 1 clickedState)).hitCooldown ≤ 0 := by
    show clickedState.hitCooldown - 1 ≤ 0
    show (0 : ℚ) - 1 ≤ 0
    norm_num
  have hpos : 0 < (prePhase 1 keys0 (physTo ⟨-(35/2), 0.3, -(35/2)⟩)
      (stepClock 1 clickedState)).inventory.get
      (prePhase 1 keys0 (physTo ⟨-(35/2), 0.3, -(35/2)⟩)
        (stepClock 1 clickedState)).button.color := by
    rw [hbc]
    have hiv : (prePhase 1 keys0 (physTo ⟨-(35/2), 0.3, -(35/2)⟩)
        (stepClock 1 clickedState)).inventory = ⟨1, 0, 0⟩ := clickedState_inventory
    rw [hiv]
    decide
  exact ((c2_score_win clickedState clickedState_reachable).2 1 keys0
    (physTo ⟨-(35/2), 0.3, -(35/2)⟩) rnd0 rfl htl hdist hcd hpos).1

/-- C3: along every reachable execution inventory counts are never
negative; and a frame in which the player hits the button (radius,
cooldown expired) while the required color's count is 0 is rejected:
the whole frame only resets the cooldown and shows the no-key message —
score, inventory and the world body set are unchanged and the button is
not despawned. -/
theorem c3_inventory_reject (s : GameState) (h : Reachable s) :
    (0 ≤ s.inventory.red ∧ 0 ≤ s.inventory.green ∧ 0 ≤ s.inventory.blue) ∧
    ∀ dt keys phys rnd, s.gameOver = false → ¬ (stepClock dt s).timeLeft ≤ 0 →
      distSq (prePhase dt keys phys (stepClock dt s)).player.pos
          (prePhase dt keys phys (stepClock dt s)).button.box.bodyPos < 1 →
      (prePhase dt keys phys (stepClock dt s)).hitCooldown ≤ 0 →
      (prePhase dt keys phys (stepClock dt s)).inventory.get
          (prePhase dt keys phys (stepClock dt s)).button.color ≤ 0 →
      update dt keys phys rnd s =
        { prePhase dt keys phys (stepClock dt s) with
            hitCooldown := 0.3
            hud := { (prePhase dt keys phys (stepClock dt s)).hud with
              msg := some (translations s.userLang).noKey } } ∧
      (update dt keys phys rnd s).score = s.score ∧
      (update dt keys phys rnd s).inventory = s.inventory ∧
      (update dt keys phys rnd s).world = s.world ∧
      (update dt keys phys rnd s).button.box.bodyId = s.button.box.bodyId ∧
      (update dt keys phys rnd s).button.box.bodyPos = s.button.box.bodyPos ∧
      (update dt keys phys rnd s).hud.msg = some (translations s.userLang).noKey := by
  have hI := reachable_inv s h
  refine ⟨hI.1.2.1, ?_⟩
  intro dt keys phys rnd hg htl hdist hcd hz
  have hupd : update dt keys phys rnd s =
      buttonDoorCamera rnd (prePhase dt keys phys (stepClock dt s)) := by
    simp only [update]
    rw [if_neg (by simp [hg]), if_neg htl]
  have hrej := reject_frame rnd (prePhase dt keys phys (stepClock dt s)) hdist hcd hz
  rw [hupd, hrej]
  exact ⟨rfl, rfl, rfl, rfl, rfl, rfl, rfl⟩

/-- C3 witness: at the fresh initial state (empty inventory) a frame
landing the player on the concrete button position is rejected with no
state change. -/
theorem c3_witness :
    (update 1 keys0 (physTo ⟨-(35/2), 0.3, -(35/2)⟩) rnd0 initEn).score = initEn.score ∧
    (update 1 keys0 (physTo ⟨-(35/2), 0.3, -(35/2)⟩) rnd0 initEn).inventory =
      initEn.inventory ∧
    (update 1 keys0 (physTo ⟨-(35/2), 0.3, -(35/2)⟩) rnd0 initEn).world = initEn.world ∧
    (update 1 keys0 (physTo ⟨-(35/2), 0.3, -(35/2)⟩) rnd0 initEn).hud.msg =
      some (translations Locale.en).noKey := by
  have htl : ¬ (stepClock 1 initEn).timeLeft ≤ 0 := by
    intro habs
    have h2 : initEn.timeLeft ≤ 1 := (stepClock_timeout_iff 1 initEn).mp habs
    have h3 : (60 : ℚ) ≤ 1 := h2
    norm_num at h3
  have hb : (prePhase 1 keys0 (physTo ⟨-(35/2), 0.3, -(35/2)⟩)
      (stepClock 1 initEn)).button.box.bodyPos = ⟨-(35/2), 0.3, -(35/2)⟩ :=
    initEn_button_pos
  have hbc : (prePhase 1 keys0 (physTo ⟨-(35/2), 0.3, -(35/2)⟩)
      (stepClock 1 initEn)).button.color = KeyColor.red :=
    initEn_button_color
  have hdist : distSq (prePhase 1 keys0 (physTo ⟨-(35/2), 0.3, -(35/2)⟩)
      (stepClock 1 initEn)).player.pos
      (prePhase 1 keys0 (physTo ⟨-(35/2), 0.3, -(35/2)⟩)
        (stepClock 1 initEn)).button.box.bodyPos < 1 := by
    rw [hb]
    show distSq ⟨-(35/2), 0.3, -(35/2)⟩ ⟨-(35/2), 0.3, -(35/2)⟩ < 1
    norm_num [distSq, Vec3.vsub, Vec3.lengthSq]
  have hcd : (prePhase 1 keys0 (physTo ⟨-(35/2), 0.3, -(35/2)⟩)
      (stepClock 1 initEn)).hitCooldown ≤ 0 := by
    show (0 : ℚ) - 1 ≤ 0
    norm_num
  have hz : (prePhase 1 keys0 (physTo ⟨-(35/2), 0.3, -(35/2)⟩)
      (stepClock 1 initEn)).inventory.get
      (prePhase 1 keys0 (physTo ⟨-(35/2), 0.3, -(35/2)⟩)
        (stepClock 1 initEn)).button.color ≤ 0 := by
    rw [hbc]
    decide
  have h := (c3_inventory_reject initEn initEn_reachable).2 1 keys0
    (physTo ⟨-(35/2), 0.3, -(35/2)⟩) rnd0 rfl htl hdist hcd hz
  exact ⟨h.2.1, h.2.2.1, h.2.2.2.1, h.2.2.2.2.2.2⟩

/-- C6: in every frame that is actually processed (the game is not over
and the clock does not expire this frame), if at door-check time the
player is within distance 1.5 of the active room's door, then the frame
flips the room tag, zeroes the player's linear and angular velocities,
teleports the player to the destination room's fixed spawn point, and
shows the transition message.  (Reachability supplies the button-band
invariant that rules the wrong-key early return out of such frames.) -/
theorem c6_door_transition (s : GameState) (h : Reachable s) (dt : ℚ) (keys : Keys)
    (phys : PhysStep) (rnd : BtnRand) (hg : s.gameOver = false)
    (htl : ¬ (stepClock dt s).timeLeft ≤ 0)
    (hnear : distSq (prePhase dt keys phys (stepClock dt s)).player.pos
      (activeDoorPos (prePhase dt keys phys (stepClock dt s))) < 2.25) :
    (s.sceneState = SceneTag.one →
      (update dt keys phys rnd s).sceneState = SceneTag.two ∧
      (update dt keys phys rnd s).player.pos = ⟨0, 2, 100⟩ ∧
      (update dt keys phys rnd s).player.vel = ⟨0, 0, 0⟩ ∧
      (update dt keys phys rnd s).player.angVel = ⟨0, 0, 0⟩ ∧
      (update dt keys phys rnd s).hud.msg = some (translations s.userLang).enterScene2) ∧
    (s.sceneState = SceneTag.two →
      (update dt keys phys rnd s).sceneState = SceneTag.one ∧
      (update dt keys phys rnd s).player.pos = ⟨0, 2, -6⟩ ∧
      (update dt keys phys rnd s).player.vel = ⟨0, 0, 0⟩ ∧
      (update dt keys phys rnd s).player.angVel = ⟨0, 0, 0⟩ ∧
      (update dt keys phys rnd s).hud.msg = some (translations s.userLang).backScene1) := by
  have hI := reachable_inv s h
  obtain ⟨⟨ht, hi, hs0, hs10, hsg, hbz, hd1, hd2⟩, -⟩ := hI
  have hupd : update dt keys phys rnd s =
      buttonDoorCamera rnd (prePhase dt keys phys (stepClock dt s)) := by
    simp only [update]
    rw [if_neg (by simp [hg]), if_neg htl]
  have hskip : ¬ (distSq (prePhase dt keys phys (stepClock dt s)).player.pos
      (prePhase dt keys phys (stepClock dt s)).button.box.bodyPos < 1 ∧
      (prePhase dt keys phys (stepClock dt s)).hitCooldown ≤ 0) := by
    rintro ⟨hbtn, -⟩
    exact notNear_of_nearButton (prePhase dt keys phys (stepClock dt s))
      hbz hd1 hd2 hbtn hnear
  have hbdc : buttonDoorCamera rnd (prePhase dt keys phys (stepClock dt s)) =
      doorCamera (prePhase dt keys phys (stepClock dt s)) := by
    simp only [buttonDoorCamera]
    rw [if_neg hskip]
  rw [hupd, hbdc]
  have hflip := doorCamera_flip (prePhase dt keys phys (stepClock dt s)) hd1 hd2 hnear
  exact ⟨fun h1 => hflip.1 h1, fun h2 => hflip.2 h2⟩

/-- C6 witness: a frame at the initial state whose physics step lands
the player one unit in front of door 1. -/
theorem c6_witness :
    (update 1 keys0 (physTo ⟨15, 0.9, 19⟩) rnd0 initEn).sceneState = SceneTag.two ∧
    (update 1 keys0 (physTo ⟨15, 0.9, 19⟩) rnd0 initEn).player.pos = ⟨0, 2, 100⟩ ∧
    (update 1 keys0 (physTo ⟨15, 0.9, 19⟩) rnd0 initEn).player.vel = ⟨0, 0, 0⟩ ∧
    (update 1 keys0 (physTo ⟨15, 0.9, 19⟩) rnd0 initEn).player.angVel = ⟨0, 0, 0⟩ ∧
    (update 1 keys0 (physTo ⟨15, 0.9, 19⟩) rnd0 initEn).hud.msg =
      some (translations Locale.en).enterScene2 := by
  have htl : ¬ (stepClock 1 initEn).timeLeft ≤ 0 := by
    intro habs
    have h2 : initEn.timeLeft ≤ 1 := (stepClock_timeout_iff 1 initEn).mp habs
    have h3 : (60 : ℚ) ≤ 1 := h2
    norm_num at h3
  have hnear : distSq (prePhase 1 keys0 (physTo ⟨15, 0.9, 19⟩)
      (stepClock 1 initEn)).player.pos
      (activeDoorPos (prePhase 1 keys0 (physTo ⟨15, 0.9, 19⟩) (stepClock 1 initEn))) <
      2.25 := by
    show distSq ⟨15, 0.9, 19⟩ ⟨15, 0.9, 20⟩ < 2.25
    norm_num [distSq, Vec3.vsub, Vec3.lengthSq]
  exact (c6_door_transition initEn initEn_reachable 1 keys0 (physTo ⟨15, 0.9, 19⟩)
    rnd0 rfl htl hnear).1 rfl

/-- Uniformity of `Math.floor(Math.random() * n)`: the draws selecting
index `i` are exactly the subinterval `[i/n, (i+1)/n)`, one of `n`
equal-length cells of `[0, 1)`. -/
theorem pickIdx_uniform {r : ℚ} (h : validR r) (n i : ℕ) (hn : 0 < n) :
    pickIdx n r = i ↔ (i : ℚ) / n ≤ r ∧ r < ((i : ℚ) + 1) / n := by
  have hnQ : (0 : ℚ) < (n : ℚ) := by exact_mod_cast hn
  have h0 : (0 : ℤ) ≤ ⌊r * (n : ℚ)⌋ := Int.floor_nonneg.2 (mul_nonneg h.1 (le_of_lt hnQ))
  unfold pickIdx
  constructor
  · intro he
    have hfe : ⌊r * (n : ℚ)⌋ = (i : ℤ) := by omega
    rw [Int.floor_eq_iff] at hfe
    obtain ⟨hl, hr2⟩ := hfe
    constructor
    · rw [div_le_iff hnQ]
      push_cast at hl ⊢
      linarith
    · rw [lt_div_iff hnQ]
      push_cast at hr2 ⊢
      linarith
  · rintro ⟨hl, hr2⟩
    have hfe : ⌊r * (n : ℚ)⌋ = (i : ℤ) := by
      rw [Int.floor_eq_iff]
      rw [div_le_iff hnQ] at hl
      rw [lt_div_iff hnQ] at hr2
      constructor
      · push_cast
        linarith
      · push_cast
        linarith
    rw [hfe]
    omega

/-- A position whose `x` and (room-local) `z` both lie in the inset
quadrant bands cannot lie inside either box of the central
cross-shaped wall. -/
theorem inBand_not_insideCross {p : Vec3} {off : ℚ}
    (hx : inBand p.x 0) (hz : inBand p.z off) : ¬ insideCross p off := by
  intro hcross
  simp only [insideCross, insideBox] at hcross
  unfold inBand at hx hz
  rcases hcross with ⟨hbx, -, -⟩ | ⟨-, -, hbz⟩
  · rw [abs_le] at hbx
    rcases hx with ⟨a, b⟩ | ⟨a, b⟩ <;> linarith [hbx.1, hbx.2]
  · rw [abs_le] at hbz
    rcases hz with ⟨a, b⟩ | ⟨a, b⟩ <;> linarith [hbz.1, hbz.2]

/-- C9: the button spawn algorithm — the room is chosen by an even coin
(`scene 1` exactly on the lower half of the unit interval), the color is
chosen uniformly from the 3-color palette (each color's draws form one
third of the unit interval), the quadrant index is uniform over the four
quadrant cells, the position lands inside the chosen quadrant inset by
the 1.5 margin (so its coordinates lie in the `±[2.5, 17.5]` bands at
height 0.3), and therefore the spawned button never lies inside the
central cross-shaped wall of its room. -/
theorem c9_spawn_algorithm (rnd : BtnRand) (w : World) (h : rnd.valid) :
    ((spawnButton rnd w).1.scene = SceneTag.one ↔ rnd.rScene < 1/2) ∧
    ((spawnButton rnd w).1.color = KeyColor.red ↔ rnd.rColor < 1/3) ∧
    ((spawnButton rnd w).1.color = KeyColor.green ↔ 1/3 ≤ rnd.rColor ∧ rnd.rColor < 2/3) ∧
    ((spawnButton rnd w).1.color = KeyColor.blue ↔ 2/3 ≤ rnd.rColor) ∧
    (∀ i : ℕ, pickIdx 4 rnd.rQuad = i ↔
      (i : ℚ) / 4 ≤ rnd.rQuad ∧ rnd.rQuad < ((i : ℚ) + 1) / 4) ∧
    inBand (spawnButton rnd w).1.box.bodyPos.x 0 ∧
    inBand (spawnButton rnd w).1.box.bodyPos.z
      (if (spawnButton rnd w).1.scene = SceneTag.one then 0 else SCENE2_Z_OFFSET) ∧
    (spawnButton rnd w).1.box.bodyPos.y = 0.3 ∧
    ¬ insideCross (spawnButton rnd w).1.box.bodyPos
      (if (spawnButton rnd w).1.scene = SceneTag.one then 0 else SCENE2_Z_OFFSET) := by
  obtain ⟨hc, hs, hq, hx, hz⟩ := h
  have hscene : (spawnButton rnd w).1.scene =
      (if rnd.rScene < 1/2 then SceneTag.one else SceneTag.two) := rfl
  have hcol : (spawnButton rnd w).1.color =
      keyColors.getD (pickIdx 3 rnd.rColor) KeyColor.red := rfl
  have hspec := pickIdx3_spec hc
  refine ⟨?_, ?_, ?_, ?_, ?_, spawnButton_x rnd w ⟨hc, hs, hq, hx, hz⟩,
    spawnButton_z rnd w ⟨hc, hs, hq, hx, hz⟩, spawnButton_y rnd w, ?_⟩
  · rw [hscene]
    split_ifs with hsc <;> simp [hsc] <;> (intros; linarith)
  · rw [hcol]
    by_cases h13 : rnd.rColor < 1/3
    · rw [hspec.1 h13]
      simp [keyColors] <;> (intros; linarith)
    · by_cases h23 : rnd.rColor < 2/3
      · rw [hspec.2.1 (not_lt.mp h13) h23]
        simp [keyColors] <;> (intros; linarith)
      · rw [hspec.2.2 (not_lt.mp h23)]
        simp [keyColors] <;> (intros; linarith)
  · rw [hcol]
    by_cases h13 : rnd.rColor < 1/3
    · rw [hspec.1 h13]
      simp [keyColors] <;> (intros; linarith)
    · by_cases h23 : rnd.rColor < 2/3
      · rw [hspec.2.1 (not_lt.mp h13) h23]
        simp [keyColors] <;> constructor <;> (intros; linarith)
      · rw [hspec.2.2 (not_lt.mp h23)]
        simp [keyColors] <;> (intros; linarith)
  · rw [hcol]
    by_cases h13 : rnd.rColor < 1/3
    · rw [hspec.1 h13]
      simp [keyColors] <;> (intros; linarith)
    · by_cases h23 : rnd.rColor < 2/3
      · rw [hspec.2.1 (not_lt.mp h13) h23]
        simp [keyColors] <;> (intros; linarith)
      · rw [hspec.2.2 (not_lt.mp h23)]
        simp [keyColors] <;> (intros; linarith)
  · intro i
    exact pickIdx_uniform hq 4 i (by norm_num)
  · exact inBand_not_insideCross (spawnButton_x rnd w ⟨hc, hs, hq, hx, hz⟩)
      (spawnButton_z rnd w ⟨hc, hs, hq, hx, hz⟩)

/-- C9 witness: the spawn algorithm evaluated on the all-zero draws —
room 1 is picked, the color is red, and the position avoids the cross
wall. -/
theorem c9_witness :
    (spawnButton rnd0 emptyWorld).1.scene = SceneTag.one ∧
    (spawnButton rnd0 emptyWorld).1.color = KeyColor.red ∧
    ¬ insideCross (spawnButton rnd0 emptyWorld).1.box.bodyPos
      (if (spawnButton rnd0 emptyWorld).1.scene = SceneTag.one then 0
       else SCENE2_Z_OFFSET) := by
  have h := c9_spawn_algorithm rnd0 emptyWorld rnd0_valid
  refine ⟨h.1.mpr (by norm_num [rnd0]), h.2.1.mpr (by norm_num [rnd0]),
    h.2.2.2.2.2.2.2.2⟩

end Game
